import Mathlib

/-!
Verification of the connection lifecycle and binary command protocol of
`droid/connection.py` (pyDroidDepot).  Python source constructs are shallowly
embedded: machine bytes are `Nat` with explicit range checks where CPython
enforces them, exceptions are `Option`/explicit exception fields, the
background keep-alive loop is a step function on an explicit state, and the
BLE environment (scanner observations, connectivity readings, external
collaborator failures) is passed in as explicit oracles.
-/

namespace PyDroidDepot

/-! ### Hex decoding (`bytes.fromhex`)

Model of CPython's `bytes.fromhex`: ASCII whitespace is skipped before,
between and after byte pairs; each byte is two hex digits that must be
adjacent (whitespace inside a pair is an error); an odd number of hex digits
or any character that is neither a hex digit nor ASCII whitespace raises
`ValueError` (`none` here). -/

/-- Value of a single hexadecimal digit, `none` when the character is not a
hex digit. -/
def hexVal (c : Char) : Option Nat :=
  if '0' ≤ c ∧ c ≤ '9' then some (c.toNat - '0'.toNat)
  else if 'a' ≤ c ∧ c ≤ 'f' then some (c.toNat - 'a'.toNat + 10)
  else if 'A' ≤ c ∧ c ≤ 'F' then some (c.toNat - 'A'.toNat + 10)
  else none

/-- The characters CPython's `Py_ISSPACE` treats as ASCII whitespace, which
`bytes.fromhex` skips between byte pairs. -/
def isPySpace (c : Char) : Bool :=
  c = ' ' ∨ c = '\t' ∨ c = '\n' ∨ c = '\x0b' ∨ c = '\x0c' ∨ c = '\r'

/-- Decode a hex string (given as its list of characters) into bytes as
`bytes.fromhex` does: skip ASCII whitespace, then read two adjacent hex
digits per byte; `none` models the raised `ValueError`. -/
def hexDecode : List Char → Option (List Nat)
  | [] => some []
  | [c] => if isPySpace c then some [] else none
  | c1 :: c2 :: rest =>
    if isPySpace c1 then hexDecode (c2 :: rest)
    else
      match hexVal c1, hexVal c2, hexDecode rest with
      | some hi, some lo, some bs => some ((16 * hi + lo) :: bs)
      | _, _, _ => none

example : hexDecode "4405ff".toList = some [0x44, 0x05, 0xff] := by decide
example : hexDecode "f".toList = none := by decide
example : hexDecode "zz".toList = none := by decide
example : hexDecode "ff ".toList = some [0xff] := by decide
example : hexDecode "ff  ff".toList = some [0xff, 0xff] := by decide
example : hexDecode "f f".toList = none := by decide
example : hexDecode "2Ef0 F1f2  ".toList = some [0x2e, 0xf0, 0xf1, 0xf2] := by decide

/-! ### Frame codec (`DroidConnection.build_droid_command`) -/

/-- Embedding of `DroidConnection.build_droid_command(command_id, data)`.
`command_id` is a (non-negative) Python int, `data` the characters of the hex
payload string.  `none` models the `ValueError` raised when
`bytes.fromhex(data)` fails or when one of the four header values falls
outside `range(256)` so that `bytearray([...])` raises; both are caught and
re-raised as `ValueError` by the source.  `some frame` is the returned
bytearray. -/
def build_droid_command (command_id : Nat) (data : List Char) : Option (List Nat) :=
  let data_length := data.length / 2
  let header_length := 3
  let byte2 := if command_id = 15 then 0x42 else 0x00
  let total_length := data_length + header_length
  let byte1 := total_length ||| 0x20
  let byte3 := command_id
  let byte4 := data_length + 0x40
  match hexDecode data with
  | none => none
  | some payload =>
    if byte1 < 256 ∧ byte2 < 256 ∧ byte3 < 256 ∧ byte4 < 256 then
      some ([byte1, byte2, byte3, byte4] ++ payload)
    else none

/-- Embedding of `DroidConnection.send_droid_command`: builds the frame and
writes it to GATT characteristic `0x000d`.  The result is the (handle, bytes)
write performed on the transport, `none` when `build_droid_command` raised. -/
def send_droid_command (command_id : Nat) (data : List Char) : Option (Nat × List Nat) :=
  (build_droid_command command_id data).map (fun c => (0x000d, c))

example : build_droid_command 5 "ff".toList = some [0x24, 0x00, 0x05, 0x41, 0xff] := by decide
example : build_droid_command 15 "".toList = some [0x23, 0x42, 0x0f, 0x40] := by decide
example : build_droid_command 0 "abc".toList = none := by decide

/-! ### Multi command (`DroidConnection.send_droid_multi_command`) -/

/-- Modelled from the spec: `DroidCommand.MultipurposeCommand` lives in
`droid/protocol.py`, which is not among the sources.  The spec identifies the
multipurpose command with the reserved multiplexed-command marker, the one
command id (`15`) that carries the special flag-byte behavior. -/
def MultipurposeCommand : Nat := 15

/-- Python's `"{:02d}".format(n)` for a non-negative int: the decimal digits
of `n`, zero-padded on the left to width at least 2. -/
def format02d (n : Nat) : List Char :=
  let s := Nat.toDigits 10 n
  if s.length < 2 then '0' :: s else s

example : format02d 5 = "05".toList := by decide
example : format02d 42 = "42".toList := by decide

/-- Embedding of `DroidConnection.send_droid_multi_command`: prefixes the
payload with `"44"` and the two-digit decimal rendering of the sub-command id,
then sends the composite payload under `MultipurposeCommand`. -/
def send_droid_multi_command (command_id : Nat) (data : List Char) : Option (Nat × List Nat) :=
  let command := ('4' :: '4' :: format02d command_id) ++ data
  send_droid_command MultipurposeCommand command

/-! ### Identity extraction (`DroidConnection.connect`, lines 84–87)

The source indexes the vendor manufacturer-data buffer with
`droid_data[droid_data_len - 1]` and `droid_data[droid_data_len - 2]`; Python
sequence indexing accepts negative indices by wrapping from the end and raises
`IndexError` once the index falls outside `[-len, len)`.  The affiliation
value `(byte - 0x80) / 2` is Python 3 true division, an exact float for these
magnitudes, modelled as a rational. -/

/-- Python sequence indexing `l[i]` for an int index: non-negative indices are
absolute, negative ones count from the end, anything out of range raises
`IndexError` (`none`). -/
def pyGetItem (l : List Nat) (i : Int) : Option Nat :=
  if h : 0 ≤ i ∧ i < l.length then
    some (l.get ⟨i.toNat, by omega⟩)
  else if h' : -(l.length : Int) ≤ i ∧ i < 0 then
    some (l.get ⟨((l.length : Int) + i).toNat, by omega⟩)
  else none

/-- Embedding of the identity-extraction lines of `DroidConnection.connect`:
`personality_id = droid_data[len - 1]`, then
`affilliation_id = (droid_data[len - 2] - 0x80) / 2`.  `none` models the
`IndexError` aborting `connect`; on success the pair
`(personality_id, affilliation_id)` is produced. -/
def extract_identity (droid_data : List Nat) : Option (Nat × ℚ) :=
  let droid_data_len : Int := droid_data.length
  match pyGetItem droid_data (droid_data_len - 1) with
  | none => none
  | some personality =>
    match pyGetItem droid_data (droid_data_len - 2) with
    | none => none
    | some b => some (personality, ((b : ℚ) - 0x80) / 2)

example : extract_identity [] = none := by norm_num [extract_identity, pyGetItem]
example : extract_identity [0x82] = some (0x82, 1) := by
  norm_num [extract_identity, pyGetItem]
example : extract_identity [0x11, 0x80, 0x07] = some (7, 0) := by
  norm_num [extract_identity, pyGetItem]
  decide

/-! ### Connect sequence (`DroidConnection.connect`)

The observable effects of `connect` are modelled as an event trace.  The
status-poll busy-wait and the sleeps produce no transport effects and are
elided; everything from the transport open to the heartbeat start appears in
source order.  If identity extraction raises `IndexError`, execution stops
there and the remaining steps never run. -/

/-- One observable step of `DroidConnection.connect`. -/
inductive CEvent where
  | transportOpen : CEvent
  | gattWrite (handle : Nat) (bytes : List Nat) : CEvent
  | identitySet (personality : Nat) (affiliation : ℚ) : CEvent
  | raiseIndexError : CEvent
  | pairingScript : CEvent
  | startHeartbeat : CEvent
deriving DecidableEq

/-- The handshake frame: `bytearray.fromhex("222001")`. -/
def connect_code : List Nat := (hexDecode "222001".toList).getD []

/-- Event trace of `DroidConnection.connect(silent)` run on a droid whose
Disney manufacturer data is `droid_data`: open the transport, write the
handshake frame twice to characteristic `0x000d`, derive the identity from the
manufacturer data (stopping with `IndexError` when it is empty), optionally run
the pairing script, then start the heartbeat thread. -/
def connect_trace (silent : Bool) (droid_data : List Nat) : List CEvent :=
  [CEvent.transportOpen,
   CEvent.gattWrite 0x000d connect_code,
   CEvent.gattWrite 0x000d connect_code]
  ++ match extract_identity droid_data with
     | none => [CEvent.raiseIndexError]
     | some (p, a) =>
       [CEvent.identitySet p a]
       ++ (if silent then [] else [CEvent.pairingScript])
       ++ [CEvent.startHeartbeat]

/-- Whether a connect event is the identity-derivation step (either outcome). -/
def is_identity_step : CEvent → Bool
  | CEvent.identitySet _ _ => true
  | CEvent.raiseIndexError => true
  | _ => false

/-! ### Disconnect (`DroidConnection.disconnect`)

`disconnect` is a `try`/`finally`: the non-silent branch plays the shutdown
audio cue and sleeps, and the `finally` block closes the transport and stops
the heartbeat loop.  Python statements are modelled as (performed actions,
raised exception); `tryFinally` runs the cleanup whether or not the body
raised and re-raises the body's exception afterwards.  The shutdown cue and
the settle sleep are external best-effort steps (`droid/audio.py` is not among
the sources); whether each of them raises is an oracle parameter. -/

/-- Observable actions of `DroidConnection.disconnect`. -/
inductive DAct where
  | playShutdownAudio : DAct
  | settleSleep : DAct
  | transportClose : DAct
  | loopStop : DAct
deriving DecidableEq

/-- Exceptions that can cross `disconnect`'s `try` boundary. -/
inductive DExc where
  | audioError : DExc
  | sleepInterrupted : DExc
deriving DecidableEq

/-- A Python statement's outcome: the actions it performed, and the exception
it raised, if any. -/
abbrev PyStmt : Type := List DAct × Option DExc

/-- Sequencing: the second statement runs only when the first did not raise. -/
def seqStmt (a b : PyStmt) : PyStmt :=
  match a with
  | (tr, none) => (tr ++ b.1, b.2)
  | (tr, some e) => (tr, some e)

/-- Python `try`/`finally`: the cleanup always runs after the body; an
exception raised by the body propagates once the cleanup finishes (the
cleanup here never raises, matching the modelled `finally` block). -/
def tryFinally (body fin : PyStmt) : PyStmt :=
  match fin with
  | (ftr, some fe) => (body.1 ++ ftr, some fe)
  | (ftr, none) => (body.1 ++ ftr, body.2)

/-- The `await self.audio_controller.play_shutdown_audio()` step; the cue is
attempted and may raise, per the oracle. -/
def playShutdownAudioStmt (cueRaises : Bool) : PyStmt :=
  ([DAct.playShutdownAudio], if cueRaises then some DExc.audioError else none)

/-- The `sleep(3)` settle step, which may be interrupted per the oracle. -/
def settleSleepStmt (sleepRaises : Bool) : PyStmt :=
  ([DAct.settleSleep], if sleepRaises then some DExc.sleepInterrupted else none)

/-- Embedding of `DroidConnection.disconnect(silent)`.  `cueRaises` and
`sleepRaises` say whether the external shutdown cue / settle sleep raise on
this call; `loopPresent` is the `self.heartbeat_loop != None` test. -/
def disconnect (silent cueRaises sleepRaises loopPresent : Bool) : PyStmt :=
  tryFinally
    (if silent then ([], none)
     else seqStmt (playShutdownAudioStmt cueRaises) (settleSleepStmt sleepRaises))
    (seqStmt ([DAct.transportClose], none)
      (if loopPresent then ([DAct.loopStop], none) else ([], none)))

example : disconnect false true false true
    = ([DAct.playShutdownAudio, DAct.transportClose, DAct.loopStop], some DExc.audioError) := by
  decide
example : disconnect true true true true
    = ([DAct.transportClose, DAct.loopStop], none) := by decide

/-! ### Keep-alive task (`DroidConnection.__send_heartbeat_command`)

The loop `while self.droid.is_connected: send(...); sleep(10)` checks the
transport's connected flag, sends the fixed flash-pairing-led frame, and
sleeps ten time units, forever, until a check reads false.  The transport's
connectivity over time is an oracle `conn : Nat → Bool` read at the loop's
check instants (multiples of ten); each iteration is one step of `hbStep`.
The command id constant `DroidCommand.FlashPairingLed` lives in
`droid/protocol.py`, outside the sources; the frame's fixedness is captured
by its fixed payload string. -/

/-- The fixed heartbeat payload `"020001ff01ff0aff00"`. -/
def heartbeat_payload : List Char := "020001ff01ff0aff00".toList

/-- State of the keep-alive loop: current time, log of `(time, payload)` sends
performed so far, and whether the loop has observed a disconnected transport
and exited. -/
structure HBState where
  time : Nat
  sends : List (Nat × List Char)
  stopped : Bool
deriving DecidableEq

/-- The keep-alive loop's initial state, entered right after `connect`. -/
def hbInit : HBState := ⟨0, [], false⟩

/-- One iteration of the keep-alive loop against connectivity oracle `conn`:
check `self.droid.is_connected`; while it holds, send the heartbeat frame and
sleep ten time units; at the first false reading, exit and never send again. -/
def hbStep (conn : Nat → Bool) (s : HBState) : HBState :=
  if s.stopped then s
  else if conn s.time then
    ⟨s.time + 10, s.sends ++ [(s.time, heartbeat_payload)], false⟩
  else ⟨s.time, s.sends, true⟩

/-- The keep-alive loop after `n` iterations. -/
def hbRun (conn : Nat → Bool) : Nat → HBState
  | 0 => hbInit
  | n + 1 => hbStep conn (hbRun conn n)

/-! ### Discovery (`discover_droid`)

The scanner environment is an oracle giving, per polling round, the list of
`(advertised name, manufacturer data)` pairs the scanner has accumulated.  The
`while retry and len(droids) == 0` loop is modelled with fuel (the source loop
may run forever in retry mode): the outer `none` means the fuel ran out, and
`some r` means the function returned, `r` being the matched
`(name, manufacturer data)` pair or `none` for Python's `None`. -/

/-- One candidate device observation: advertised name and manufacturer data. -/
abbrev Device : Type := String × List Nat

/-- The scan loop of `discover_droid`: `droids` accumulates matches,
`discovered` is the `discovered_droid` variable, `round` indexes the oracle's
successive snapshots.  Mirrors the source: the loop body runs only while
`retry` holds and no droid has matched; inside, devices named `"DROID"` are
appended, and when matches exist `discovered_droid = droids[0]` is taken and
the loop re-check exits. -/
def discoverLoop (env : Nat → List Device) (retry : Bool) :
    Nat → List Device → Option Device → Nat → Option (Option Device)
  | 0, _, _, _ => none
  | fuel + 1, droids, discovered, round =>
    if retry ∧ droids.isEmpty then
      let found := (env round).filter (fun d => d.1 = "DROID")
      let droids' := droids ++ found
      if droids'.isEmpty then
        discoverLoop env retry fuel droids' discovered (round + 1)
      else
        discoverLoop env retry fuel droids' droids'.head? (round + 1)
    else
      some discovered

/-- Embedding of `discover_droid(retry)` against scanner oracle `env`:
starts the loop with no matches and `discovered_droid = None`; on normal
termination the result is the discovered device, or Python `None` when the
loop was never entered or found nothing. -/
def discover_droid (env : Nat → List Device) (retry : Bool) (fuel : Nat) :
    Option (Option Device) :=
  discoverLoop env retry fuel [] none 0

example : discover_droid (fun _ => [("DROID", [1, 2])]) false 1 = some none := by decide
example : discover_droid (fun _ => [("DROID", [1, 2])]) true 3
    = some (some ("DROID", [1, 2])) := by decide

/-! ## Theorems -/

/-- Helper: a hex digit is never ASCII whitespace. -/
theorem hexVal_isSome_not_space (c : Char) (h : (hexVal c).isSome) : isPySpace c = false := by
  by_contra hsp
  simp only [Bool.not_eq_false, isPySpace, decide_eq_true_eq] at hsp
  rcases hsp with rfl | rfl | rfl | rfl | rfl | rfl <;> simp [hexVal] at h

/-- Inversion for `hexDecode`: a successful decode consumes exactly two hex
digits per output byte once ASCII whitespace is discarded, and every input
character is either ASCII whitespace or a hex digit. -/
theorem hexDecode_some : ∀ (data : List Char) (bs : List Nat), hexDecode data = some bs →
    (data.filter (fun c => !isPySpace c)).length = 2 * bs.length ∧
    ∀ c ∈ data, isPySpace c = true ∨ (hexVal c).isSome
  | [], bs, h => by
    simp [hexDecode] at h
    simp [← h]
  | [c], bs, h => by
    rw [hexDecode] at h
    split at h
    · next hsp =>
      simp only [Option.some.injEq] at h
      refine ⟨by simp [List.filter, hsp, ← h], ?_⟩
      intro x hx
      rcases List.mem_singleton.mp hx with rfl
      exact Or.inl hsp
    · simp at h
  | c1 :: c2 :: rest, bs, h => by
    rw [hexDecode] at h
    split at h
    · next hsp =>
      obtain ⟨h1, h2⟩ := hexDecode_some (c2 :: rest) bs h
      refine ⟨by simpa [List.filter_cons, hsp] using h1, ?_⟩
      intro x hx
      rcases List.mem_cons.mp hx with rfl | hx
      · exact Or.inl hsp
      · exact h2 x hx
    · next hsp =>
      rcases h1 : hexVal c1 with _ | hi <;> rcases h2 : hexVal c2 with _ | lo <;>
        rcases h3 : hexDecode rest with _ | bs' <;> simp [h1, h2, h3] at h
      obtain ⟨hlen, hall⟩ := hexDecode_some rest bs' h3
      have hc1sp : isPySpace c1 = false := by simpa using hsp
      have hc2sp : isPySpace c2 = false := hexVal_isSome_not_space c2 (by simp [h2])
      constructor
      · rw [List.filter_cons, List.filter_cons, hc1sp, hc2sp]
        simp only [Bool.not_false, if_true, List.length_cons, hlen, ← h, List.length_cons]
        omega
      · intro x hx
        simp only [List.mem_cons] at hx
        rcases hx with rfl | rfl | hx
        · exact Or.inr (by simp [h1])
        · exact Or.inr (by simp [h2])
        · exact hall x hx

/-- Claim C1 (amended): for every `command_id` in `[0, 255]` and every
even-length hex-decodable payload string **free of ASCII whitespace** and of
**at most 191 payload bytes**, the frame returned by `build_droid_command` is
exactly `[length_byte, flag_byte, command_id, payload_length_byte] ++ payload`,
with `length_byte = (payload byte count + 3) ||| 0x20`,
`payload_length_byte = payload byte count + 0x40`, and `flag_byte = 0x42`
exactly when `command_id = 15`.  (Outside those bounds the invariant fails:
whitespace is decoded away by `bytes.fromhex` but still counted by the
`len(data) // 2` header fields, and at 192 or more payload bytes the encoder
raises `ValueError` because `payload_length_byte` no longer fits in a byte —
see the counterexample.) -/
theorem build_droid_command_spec (command_id : Nat) (data : List Char) (bs : List Nat)
    (hcid : command_id ≤ 255) (hws : ∀ c ∈ data, isPySpace c = false)
    (hdec : hexDecode data = some bs) (hlen : bs.length ≤ 191) :
    build_droid_command command_id data =
      some ([(bs.length + 3) ||| 0x20, if command_id = 15 then 0x42 else 0x00,
             command_id, bs.length + 0x40] ++ bs) := by
  have hfilter : data.filter (fun c => !isPySpace c) = data :=
    List.filter_eq_self.mpr (fun c hc => by simp [hws c hc])
  have hlen2 : data.length = 2 * bs.length := by
    have := (hexDecode_some data bs hdec).1
    rwa [hfilter] at this
  have hdiv : data.length / 2 = bs.length := by omega
  have hb1 : (bs.length + 3) ||| 0x20 < 256 := by
    have := Nat.or_lt_two_pow (n := 8) (by omega : bs.length + 3 < 2 ^ 8)
      (by norm_num : 0x20 < 2 ^ 8)
    simpa using this
  have hb2 : (if command_id = 15 then 0x42 else 0x00) < 256 := by split <;> norm_num
  simp only [build_droid_command, hdec, hdiv]
  rw [if_pos ⟨hb1, hb2, by omega, by omega⟩]

/-- Witness for `build_droid_command_spec` at `command_id = 15`,
payload `"ff"`. -/
theorem build_droid_command_spec_witness :
    build_droid_command 15 "ff".toList = some [0x24, 0x42, 0x0f, 0x41, 0xff] := by
  rw [build_droid_command_spec 15 "ff".toList [0xff] (by decide) (by decide) (by decide)
    (by decide)]
  decide

set_option maxRecDepth 4000 in
/-- Counterexamples to claim C1 as stated, one per failure mode.  First, the
6-character payload `"ff  ff"` is even-length and decoded by `bytes.fromhex`
to the two bytes `0xff 0xff`, yet the frame's header fields read
`0x26`/`0x43` — computed from `len(data) // 2 = 3`, which counts the skipped
whitespace — instead of the claimed `(2 + 3) ||| 0x20 = 0x25` and
`2 + 0x40 = 0x42`.  Second, the 384-character all-zero string (192 payload
bytes) yields no frame at all: `payload_length_byte = 192 + 0x40 = 256` is
rejected by `bytearray`, raising `ValueError`. -/
theorem build_droid_command_cex :
    (hexDecode "ff  ff".toList = some [0xff, 0xff] ∧
     build_droid_command 0 "ff  ff".toList = some [0x26, 0x00, 0x00, 0x43, 0xff, 0xff] ∧
     build_droid_command 0 "ff  ff".toList ≠ some [0x25, 0x00, 0x00, 0x42, 0xff, 0xff]) ∧
    (hexDecode (List.replicate 384 '0') = some (List.replicate 192 0) ∧
     build_droid_command 0 (List.replicate 384 '0') = none) := by
  refine ⟨⟨by decide, by decide, by decide⟩, by decide, by decide⟩

/-- Counterexample to claim C2 as stated: the payload `"ff "` is odd-length
and contains the non-hex character `' '`, yet the encoder raises nothing —
`bytes.fromhex` skips the trailing ASCII whitespace, a frame is returned, and
`send_droid_command` transmits it. -/
theorem build_droid_command_whitespace_accepted_cex :
    ("ff ".toList.length % 2 = 1 ∧ ' ' ∈ "ff ".toList ∧ hexVal ' ' = none) ∧
    build_droid_command 7 "ff ".toList = some [0x24, 0x00, 0x07, 0x41, 0xff] ∧
    send_droid_command 7 "ff ".toList = some (0x000d, [0x24, 0x00, 0x07, 0x41, 0xff]) := by
  refine ⟨⟨by decide, by decide, by decide⟩, by decide, by decide⟩

/-- Claim C2 (amended): for every command id, a payload string whose hex
digits after discarding ASCII whitespace are odd in number, or which contains
a character that is neither a hex digit nor ASCII whitespace, makes the
encoder raise `ValueError` with no partial output: no frame is returned and
nothing is written to the transport by `send_droid_command`.  (ASCII
whitespace between byte pairs is not an error: `bytes.fromhex` skips it — see
the counterexample.) -/
theorem build_droid_command_malformed (command_id : Nat) (data : List Char)
    (h : (data.filter (fun c => !isPySpace c)).length % 2 = 1 ∨
      ∃ c ∈ data, isPySpace c = false ∧ hexVal c = none) :
    build_droid_command command_id data = none ∧
      send_droid_command command_id data = none := by
  have hdec : hexDecode data = none := by
    cases hd : hexDecode data with
    | none => rfl
    | some bs =>
      obtain ⟨hlen, hall⟩ := hexDecode_some data bs hd
      rcases h with h | ⟨c, hc, hcsp, hcn⟩
      · omega
      · rcases hall c hc with hsp | hhex
        · simp [hsp] at hcsp
        · simp [hcn] at hhex
  constructor
  · simp [build_droid_command, hdec]
  · simp [send_droid_command, build_droid_command, hdec]

/-- Witness for `build_droid_command_malformed`: the odd-digit payload `"f"`
and the non-hex payload `"zz"` are both rejected with no output. -/
theorem build_droid_command_malformed_witness :
    (("f".toList.filter (fun c => !isPySpace c)).length % 2 = 1 ∨
      ∃ c ∈ "f".toList, isPySpace c = false ∧ hexVal c = none) ∧
    ((∃ c ∈ "zz".toList, isPySpace c = false ∧ hexVal c = none)) ∧
    build_droid_command 3 "f".toList = none ∧ send_droid_command 3 "f".toList = none ∧
    build_droid_command 3 "zz".toList = none ∧ send_droid_command 3 "zz".toList = none := by
  refine ⟨Or.inl (by decide), ⟨'z', by decide, by decide, by decide⟩, ?_⟩
  obtain ⟨h1, h2⟩ := build_droid_command_malformed 3 "f".toList (Or.inl (by decide))
  obtain ⟨h3, h4⟩ := build_droid_command_malformed 3 "zz".toList
    (Or.inr ⟨'z', by decide, by decide, by decide⟩)
  exact ⟨h1, h2, h3, h4⟩

/-- Helper: Python indexing with a non-negative in-range index is plain list
indexing. -/
theorem pyGetItem_nonneg (l : List Nat) (i : Int) (h0 : 0 ≤ i) (hl : i < l.length) :
    pyGetItem l i = some (l.getD i.toNat 0) := by
  rw [pyGetItem, dif_pos ⟨h0, hl⟩, List.getD_eq_getElem]
  · simp
  · omega

/-- Helper: the general shape of `extract_identity` on buffers of length at
least two. -/
theorem extract_identity_last_two (b : List Nat) (h : 2 ≤ b.length) :
    extract_identity b =
      some (b.getD (b.length - 1) 0, ((b.getD (b.length - 2) 0 : ℚ) - 0x80) / 2) := by
  have h1 : ((b.length : Int) - 1).toNat = b.length - 1 := by omega
  have h2 : ((b.length : Int) - 2).toNat = b.length - 2 := by omega
  rw [extract_identity]
  rw [pyGetItem_nonneg b _ (by omega) (by omega), pyGetItem_nonneg b _ (by omega) (by omega)]
  rw [h1, h2]

/-- Claim C4: on every vendor-data buffer with at least 2 bytes, identity
extraction yields `personality_id` equal to the last byte and
`affiliation_id = (second-to-last byte - 0x80) / 2`; in particular every
buffer ending in `0x80, 0x07` yields `affiliation_id = 0` and
`personality_id = 7`. -/
theorem extract_identity_of_len_ge_two (b pre : List Nat) (h : 2 ≤ b.length) :
    extract_identity b =
      some (b.getD (b.length - 1) 0, ((b.getD (b.length - 2) 0 : ℚ) - 0x80) / 2) ∧
    extract_identity (pre ++ [0x80, 0x07]) = some (7, 0) := by
  refine ⟨extract_identity_last_two b h, ?_⟩
  have hlen : (pre ++ [0x80, 0x07]).length = pre.length + 2 := by simp
  rw [extract_identity_last_two (pre ++ [0x80, 0x07]) (by simp)]
  rw [hlen]
  rw [show pre.length + 2 - 1 = pre.length + 1 by omega,
      show pre.length + 2 - 2 = pre.length by omega]
  rw [List.getD_append_right pre _ _ _ (by omega), List.getD_append_right pre _ _ _ (by omega)]
  simp

/-- Witness for `extract_identity_of_len_ge_two` at the buffers
`[0x80, 0x07]` and `[0x11, 0x80, 0x07]`. -/
theorem extract_identity_of_len_ge_two_witness :
    2 ≤ ([0x80, 0x07] : List Nat).length ∧
    extract_identity [0x80, 0x07] = some (7, 0) ∧
    extract_identity ([0x11] ++ [0x80, 0x07]) = some (7, 0) := by
  obtain ⟨h1, h2⟩ := extract_identity_of_len_ge_two [0x80, 0x07] [0x11] (by decide)
  refine ⟨by decide, ?_, h2⟩
  norm_num [List.getD] at h1
  exact h1

/-- Counterexample to claim C3 as stated: the 1-byte vendor buffer `[0x82]`
has fewer than 2 bytes, yet identity extraction does not fail at all — Python
wraps the negative index `len - 2 = -1` around to the same single byte, so
`personality_id = 0x82` and `affiliation_id = (0x82 - 0x80) / 2 = 1` are
silently assigned. -/
theorem extract_identity_one_byte_cex :
    extract_identity [0x82] = some (0x82, 1) := by
  norm_num [extract_identity, pyGetItem]

/-- Claim C3 (amended): only the **empty** vendor buffer makes identity
extraction fail during `connect` — and with Python's `IndexError`, not an
`InsufficientAdvertisementData` error, which does not exist in the code.  A
1-byte buffer `[x]` raises nothing: negative-index wraparound silently assigns
`personality_id = x` and `affiliation_id = (x - 0x80) / 2` from that same
byte. -/
theorem extract_identity_short_buffer (x : Nat) :
    extract_identity [] = none ∧
    extract_identity [x] = some (x, ((x : ℚ) - 0x80) / 2) := by
  constructor
  · norm_num [extract_identity, pyGetItem]
  · norm_num [extract_identity, pyGetItem]

/-- Claim C5: sending the multi-command with sub-command id 5 and payload
`"ff"` performs exactly the write produced by sending the top-level
multipurpose command with payload `"4405ff"`, and that common frame is
`[0x26, 0x42, 0x0f, 0x43, 0x44, 0x05, 0xff]`. -/
theorem send_droid_multi_command_framing :
    send_droid_multi_command 5 "ff".toList
      = send_droid_command MultipurposeCommand "4405ff".toList ∧
    send_droid_multi_command 5 "ff".toList
      = some (0x000d, [0x26, 0x42, 0x0f, 0x43, 0x44, 0x05, 0xff]) := by
  constructor
  · decide
  · decide

/-- Claim C6: on every call to `disconnect` — silent or not, and whether or
not the shutdown audio cue or the settle sleep raises — the transport-close
step is executed: it sits in the `finally` block. -/
theorem disconnect_always_closes_transport (silent cueRaises sleepRaises loopPresent : Bool) :
    DAct.transportClose ∈ (disconnect silent cueRaises sleepRaises loopPresent).1 := by
  cases silent <;> cases cueRaises <;> cases sleepRaises <;> cases loopPresent <;> decide

/-- Counterexample to claim C7 as stated: a `disconnect` call (such as the
second of two, whose non-silent shutdown cue writes to the already-closed
transport) raises whenever the cue raises — the `finally` block closes the
transport and stops the loop but then re-raises the cue's exception to the
caller. -/
theorem disconnect_raises_when_cue_fails_cex :
    (disconnect false true false true).2 = some DExc.audioError ∧
    (disconnect false true false true).1
      = [DAct.playShutdownAudio, DAct.transportClose, DAct.loopStop] := by
  constructor
  · decide
  · decide

/-- Claim C7 (amended): a repeated (or already-disconnected) `disconnect` call
does not raise when invoked with `silent = true`, or whenever the shutdown cue
and the settle sleep themselves do not raise; when the non-silent cue raises,
its exception propagates to the caller even though transport closure and loop
stop still run. -/
theorem disconnect_idempotent_amended (cueRaises sleepRaises loopPresent : Bool) :
    (disconnect true cueRaises sleepRaises loopPresent).2 = none ∧
    (disconnect false false false loopPresent).2 = none := by
  cases cueRaises <;> cases sleepRaises <;> cases loopPresent <;> exact ⟨by decide, by decide⟩

/-- Claim C8: during `connect`, the handshake frame `0x22 0x20 0x01` (decoded
from `"222001"`) is written to characteristic `0x000d` exactly twice before
the identity-derivation step, whatever the `silent` flag and the stored
manufacturer data. -/
theorem connect_handshake_written_twice (silent : Bool) (droid_data : List Nat) :
    connect_code = [0x22, 0x20, 0x01] ∧
    ((connect_trace silent droid_data).takeWhile (fun e => !(is_identity_step e))).count
        (CEvent.gattWrite 0x000d connect_code) = 2 := by
  refine ⟨by decide, ?_⟩
  cases h : extract_identity droid_data with
  | none =>
    simp [connect_trace, h, is_identity_step, List.takeWhile, List.count_cons, connect_code,
      hexDecode, hexVal]
  | some pa =>
    cases silent <;>
      simp [connect_trace, h, is_identity_step, List.takeWhile, List.count_cons, connect_code,
        hexDecode, hexVal]

/-- Helper: running invariant of the keep-alive loop — time advances ten
units per send, the send log is exactly one fixed heartbeat frame per period
`0, 10, 20, …`, and every send happened at an instant where the transport
reported itself connected. -/
theorem hbRun_invariant (conn : Nat → Bool) (n : Nat) :
    (hbRun conn n).time = 10 * (hbRun conn n).sends.length ∧
    (hbRun conn n).sends =
      (List.range (hbRun conn n).sends.length).map (fun i => (10 * i, heartbeat_payload)) ∧
    ∀ p ∈ (hbRun conn n).sends, conn p.1 = true := by
  induction n with
  | zero => simp [hbRun, hbInit]
  | succ n ih =>
    obtain ⟨htime, hsends, hconn⟩ := ih
    rw [hbRun, hbStep]
    split
    · exact ⟨htime, hsends, hconn⟩
    · split
      · next hc =>
        refine ⟨by simp [htime]; ring, ?_, ?_⟩
        · simp only [List.length_append, List.length_singleton]
          rw [List.range_succ, List.map_append]
          simp [← hsends, htime, hc]
        · intro p hp
          simp only [List.mem_append, List.mem_singleton] at hp
          rcases hp with hp | rfl
          · exact hconn p hp
          · simpa [htime] using hc
      · exact ⟨htime, hsends, hconn⟩

/-- Helper: once the keep-alive loop has observed a disconnected transport it
is stopped for good — further iterations change nothing. -/
theorem hbRun_frozen (conn : Nat → Bool) (n m : Nat) (h : (hbRun conn n).stopped = true) :
    hbRun conn (n + m) = hbRun conn n := by
  induction m with
  | zero => rfl
  | succ m ih =>
    rw [show n + (m + 1) = (n + m) + 1 by omega, hbRun, ih, hbStep, if_pos h]

/-- Claim C9: after any number of iterations, the keep-alive loop's send log
consists of the fixed heartbeat frame at times `0, 10, 20, …` (one per
ten-time-unit period), every send happened while the transport reported
itself connected, and once the loop has observed a disconnected transport no
further iteration adds a send. -/
theorem heartbeat_period_and_stop (conn : Nat → Bool) (n m : Nat) :
    ((hbRun conn n).sends =
        (List.range (hbRun conn n).sends.length).map (fun i => (10 * i, heartbeat_payload)) ∧
      ∀ p ∈ (hbRun conn n).sends, conn p.1 = true) ∧
    ((hbRun conn n).stopped = true → (hbRun conn (n + m)).sends = (hbRun conn n).sends) := by
  refine ⟨⟨(hbRun_invariant conn n).2.1, (hbRun_invariant conn n).2.2⟩, fun h => ?_⟩
  rw [hbRun_frozen conn n m h]

/-- Witness for `heartbeat_period_and_stop`: against a transport that is
connected only at time 0, the loop sends once, observes the disconnect on its
second check, and three further iterations add nothing. -/
theorem heartbeat_period_and_stop_witness :
    (hbRun (fun t => t == 0) 2).stopped = true ∧
    (hbRun (fun t => t == 0) 2).sends = [(0, heartbeat_payload)] ∧
    (hbRun (fun t => t == 0) (2 + 3)).sends = (hbRun (fun t => t == 0) 2).sends := by
  refine ⟨by decide, by decide, ?_⟩
  exact (heartbeat_period_and_stop (fun t => t == 0) 2 3).2 (by decide)

/-- Claim C10: `discover_droid` invoked with `retry = false` returns Python
`None` without raising, whatever the scanner observes — the matching loop body
is guarded by `retry` and never runs. -/
theorem discover_droid_no_retry (env : Nat → List Device) (fuel : Nat) (h : 0 < fuel) :
    discover_droid env false fuel = some none := by
  obtain ⟨k, rfl⟩ : ∃ k, fuel = k + 1 := ⟨fuel - 1, by omega⟩
  simp [discover_droid, discoverLoop]

/-- Witness for `discover_droid_no_retry`: even with a device named `"DROID"`
in every scan snapshot, the non-retry call returns `None`. -/
theorem discover_droid_no_retry_witness :
    0 < 1 ∧ discover_droid (fun _ => [("DROID", [0x03, 0x01])]) false 1 = some none :=
  ⟨by decide, discover_droid_no_retry (fun _ => [("DROID", [0x03, 0x01])]) 1 (by decide)⟩

end PyDroidDepot
